import Mathlib

/-!
Shallow embedding of the ShopifyMCP / VoiceFlow HTTP façade.

The repository consists of two Express servers:
  * `src/unnamed/part_000` — the REST variant: `GET /tools`, `POST /tools/:toolName`.
  * `src/server.js` — the MCP variant: an MCP `Server` with `tools/list` and
    `tools/call` handlers, wired to a single module-level SSE transport via
    `GET /sse` and `POST /messages`.

Both variants share the same authentication middleware, the same five tool
definitions and the same Shopify GraphQL handlers; the pure parts of that code
are embedded below.  The network call performed by `shopifyGraphQL` is
abstracted as an environment `ShopifyEnv` giving, for each issued GraphQL call,
either the decoded `data` (the function's return value) or the message of the
error it throws (`Shopify API error: ...` on a non-ok response, or
`GraphQL errors: ...` when the body carries `errors`).
-/

/-- JSON values, as produced and consumed by the servers.  Numbers are modelled
as integers; every numeric literal in the source (`limit`, `first`, `10`) is
integral. -/
inductive Json where
  | null : Json
  | bool (b : Bool) : Json
  | num (n : Int) : Json
  | str (s : String) : Json
  | arr (xs : List Json) : Json
  | obj (fields : List (String × Json)) : Json
mutual

/-- Decidable equality for `Json` (the `deriving` handler does not support this
nested inductive). -/
def Json.decEq : (a b : Json) → Decidable (a = b)
  | Json.null, Json.null => isTrue rfl
  | Json.bool a, Json.bool b =>
    if h : a = b then isTrue (by rw [h]) else isFalse (by intro k; cases k; exact h rfl)
  | Json.num a, Json.num b =>
    if h : a = b then isTrue (by rw [h]) else isFalse (by intro k; cases k; exact h rfl)
  | Json.str a, Json.str b =>
    if h : a = b then isTrue (by rw [h]) else isFalse (by intro k; cases k; exact h rfl)
  | Json.arr xs, Json.arr ys =>
    match Json.decEqList xs ys with
    | isTrue h => isTrue (by rw [h])
    | isFalse h => isFalse (by intro k; cases k; exact h rfl)
  | Json.obj xs, Json.obj ys =>
    match Json.decEqFields xs ys with
    | isTrue h => isTrue (by rw [h])
    | isFalse h => isFalse (by intro k; cases k; exact h rfl)
  | Json.null, Json.bool _ => isFalse (fun k => Json.noConfusion k)
  | Json.null, Json.num _ => isFalse (fun k => Json.noConfusion k)
  | Json.null, Json.str _ => isFalse (fun k => Json.noConfusion k)
  | Json.null, Json.arr _ => isFalse (fun k => Json.noConfusion k)
  | Json.null, Json.obj _ => isFalse (fun k => Json.noConfusion k)
  | Json.bool _, Json.null => isFalse (fun k => Json.noConfusion k)
  | Json.bool _, Json.num _ => isFalse (fun k => Json.noConfusion k)
  | Json.bool _, Json.str _ => isFalse (fun k => Json.noConfusion k)
  | Json.bool _, Json.arr _ => isFalse (fun k => Json.noConfusion k)
  | Json.bool _, Json.obj _ => isFalse (fun k => Json.noConfusion k)
  | Json.num _, Json.null => isFalse (fun k => Json.noConfusion k)
  | Json.num _, Json.bool _ => isFalse (fun k => Json.noConfusion k)
  | Json.num _, Json.str _ => isFalse (fun k => Json.noConfusion k)
  | Json.num _, Json.arr _ => isFalse (fun k => Json.noConfusion k)
  | Json.num _, Json.obj _ => isFalse (fun k => Json.noConfusion k)
  | Json.str _, Json.null => isFalse (fun k => Json.noConfusion k)
  | Json.str _, Json.bool _ => isFalse (fun k => Json.noConfusion k)
  | Json.str _, Json.num _ => isFalse (fun k => Json.noConfusion k)
  | Json.str _, Json.arr _ => isFalse (fun k => Json.noConfusion k)
  | Json.str _, Json.obj _ => isFalse (fun k => Json.noConfusion k)
  | Json.arr _, Json.null => isFalse (fun k => Json.noConfusion k)
  | Json.arr _, Json.bool _ => isFalse (fun k => Json.noConfusion k)
  | Json.arr _, Json.num _ => isFalse (fun k => Json.noConfusion k)
  | Json.arr _, Json.str _ => isFalse (fun k => Json.noConfusion k)
  | Json.arr _, Json.obj _ => isFalse (fun k => Json.noConfusion k)
  | Json.obj _, Json.null => isFalse (fun k => Json.noConfusion k)
  | Json.obj _, Json.bool _ => isFalse (fun k => Json.noConfusion k)
  | Json.obj _, Json.num _ => isFalse (fun k => Json.noConfusion k)
  | Json.obj _, Json.str _ => isFalse (fun k => Json.noConfusion k)
  | Json.obj _, Json.arr _ => isFalse (fun k => Json.noConfusion k)

/-- Decidable equality for lists of `Json`. -/
def Json.decEqList : (a b : List Json) → Decidable (a = b)
  | [], [] => isTrue rfl
  | [], _ :: _ => isFalse (fun k => List.noConfusion k)
  | _ :: _, [] => isFalse (fun k => List.noConfusion k)
  | x :: xs, y :: ys =>
    match Json.decEq x y, Json.decEqList xs ys with
    | isTrue h1, isTrue h2 => isTrue (by rw [h1, h2])
    | isFalse h1, _ => isFalse (by intro k; cases k; exact h1 rfl)
    | _, isFalse h2 => isFalse (by intro k; cases k; exact h2 rfl)

/-- Decidable equality for JSON object field lists. -/
def Json.decEqFields : (a b : List (String × Json)) → Decidable (a = b)
  | [], [] => isTrue rfl
  | [], _ :: _ => isFalse (fun k => List.noConfusion k)
  | _ :: _, [] => isFalse (fun k => List.noConfusion k)
  | (k1, v1) :: xs, (k2, v2) :: ys =>
    match String.decEq k1 k2, Json.decEq v1 v2, Json.decEqFields xs ys with
    | isTrue h0, isTrue h1, isTrue h2 => isTrue (by rw [h0, h1, h2])
    | isFalse h0, _, _ => isFalse (by intro k; cases k; exact h0 rfl)
    | _, isFalse h1, _ => isFalse (by intro k; cases k; exact h1 rfl)
    | _, _, isFalse h2 => isFalse (by intro k; cases k; exact h2 rfl)

end

instance : DecidableEq Json := Json.decEq

/-- Property lookup `j.k` on a JSON object: `none` models JavaScript's
`undefined` (missing property, or access on a non-object). -/
def Json.getField : Json → String → Option Json
  | Json.obj fields, k => fields.lookup k
  | _, _ => none

/-- JavaScript truthiness of a JSON value: `null`, `false`, `0` and `""` are
falsy; arrays and objects are always truthy. -/
def Json.truthy : Json → Bool
  | Json.null => false
  | Json.bool b => b
  | Json.num n => n ≠ 0
  | Json.str s => s ≠ ""
  | Json.arr _ => true
  | Json.obj _ => true

/-- JavaScript `a || b` where `a` is a (possibly `undefined`) property access:
returns `a` when it is present and truthy, otherwise `b`. -/
def jsOr (a : Option Json) (b : Json) : Json :=
  match a with
  | some v => if v.truthy then v else b
  | none => b

mutual

/-- JavaScript string interpolation of a JSON value inside a template literal
(`String(v)`): an array converts to its elements comma-joined
(`Array.prototype.toString` = `join(',')`), a plain object to
`[object Object]`. -/
def Json.interp : Json → String
  | Json.null => "null"
  | Json.bool b => if b then "true" else "false"
  | Json.num n => toString n
  | Json.str s => s
  | Json.arr xs => Json.interpElems xs
  | Json.obj _ => "[object Object]"

/-- Comma-join of array elements under `Array.prototype.join`. -/
def Json.interpElems : List Json → String
  | [] => ""
  | [x] => Json.interpElem x
  | x :: y :: xs => Json.interpElem x ++ "," ++ Json.interpElems (y :: xs)

/-- One array element under `join`: `null` (and `undefined`) become the empty
string, every other value converts as usual. -/
def Json.interpElem : Json → String
  | Json.null => ""
  | j => Json.interp j

end

/-! ## Shopify GraphQL layer

`shopifyGraphQL(query, variables)` POSTs one GraphQL document to Shopify.  The
five GraphQL document strings of the source are denoted by the constructors of
`GQLQuery` (their text is never inspected by the server after construction).
The network side is abstracted by `ShopifyEnv`. -/

/-- The five GraphQL documents of the source, one per tool handler:
`getProducts`, `getProduct`, `getCustomers`, `getOrders`, `getOrder`. -/
inductive GQLQuery where
  | getProducts : GQLQuery
  | getProduct : GQLQuery
  | getCustomers : GQLQuery
  | getOrders : GQLQuery
  | getOrder : GQLQuery
deriving DecidableEq, Repr

/-- One invocation of `shopifyGraphQL`: the document and the `variables` object
passed alongside it.  (JavaScript `undefined` variable values are collapsed to
`null`; `JSON.stringify` would drop the former and keep the latter, and no
handler distinguishes them afterwards.) -/
structure GraphQLCall where
  query : GQLQuery
  vars : List (String × Json)
deriving DecidableEq

/-- Abstraction of the Shopify backend: for an issued call, either the decoded
`data` object returned by `shopifyGraphQL`, or the message of the error it
throws (`Shopify API error: ...` when `!response.ok`, `GraphQL errors: ...`
when the body carries `errors`). -/
def ShopifyEnv : Type := GraphQLCall → Except String Json

/-- A tool handler: issues GraphQL calls against the environment and either
returns a JSON result or throws an error message.  The issued calls are
recorded so that theorems can state that no Shopify request was made. -/
def ToolHandler : Type := ShopifyEnv → Json → List GraphQLCall × Except String Json

/-- Message of the `TypeError` JavaScript throws when a handler dereferences a
`data` object that lacks the expected `collection.edges` array shape.  (The
exact wording of the runtime's message is irrelevant to every caller.) -/
def typeErrorMsg : String := "TypeError"

/-- `data.<k>.edges.map(e => e.node)`: project the `node` of each edge of the
collection `k`, throwing a `TypeError` when the shape is absent. -/
def mapEdges (data : Json) (k : String) : Except String Json :=
  match data.getField k with
  | some coll =>
    match coll.getField "edges" with
    | some (Json.arr es) =>
      Except.ok (Json.arr (es.map (fun e => (e.getField "node").getD Json.null)))
    | _ => Except.error typeErrorMsg
  | none => Except.error typeErrorMsg

/-- `executeGetProducts` (`server.js` 141–169; identical inline handler in the
REST variant): `first = args.limit || 10`, `query = args.searchTitle ?
"title:*<searchTitle>*" : null`, then `data.products.edges.map(e => e.node)`. -/
def executeGetProducts : ToolHandler := fun env args =>
  let call : GraphQLCall :=
    { query := GQLQuery.getProducts
      vars :=
        [("first", jsOr (args.getField "limit") (Json.num 10)),
         ("query",
          match args.getField "searchTitle" with
          | some st =>
            if st.truthy then Json.str ("title:*" ++ st.interp ++ "*") else Json.null
          | none => Json.null)] }
  ([call],
   match env call with
   | Except.ok data => mapEdges data "products"
   | Except.error e => Except.error e)

/-- `executeGetProductById` (`server.js` 171–189): variables `{id:
args.productId}`, returns `data.product`. -/
def executeGetProductById : ToolHandler := fun env args =>
  let call : GraphQLCall :=
    { query := GQLQuery.getProduct
      vars := [("id", (args.getField "productId").getD Json.null)] }
  ([call],
   match env call with
   | Except.ok data => Except.ok ((data.getField "product").getD Json.null)
   | Except.error e => Except.error e)

/-- `executeGetCustomers` (`server.js` 191–217): `first = args.limit || 10`,
`query = args.searchQuery || null`, then `data.customers.edges.map(e =>
e.node)`. -/
def executeGetCustomers : ToolHandler := fun env args =>
  let call : GraphQLCall :=
    { query := GQLQuery.getCustomers
      vars :=
        [("first", jsOr (args.getField "limit") (Json.num 10)),
         ("query", jsOr (args.getField "searchQuery") Json.null)] }
  ([call],
   match env call with
   | Except.ok data => mapEdges data "customers"
   | Except.error e => Except.error e)

/-- `executeGetOrders` (`server.js` 219–246): `first = args.limit || 10`, then
`data.orders.edges.map(e => e.node)`. -/
def executeGetOrders : ToolHandler := fun env args =>
  let call : GraphQLCall :=
    { query := GQLQuery.getOrders
      vars := [("first", jsOr (args.getField "limit") (Json.num 10))] }
  ([call],
   match env call with
   | Except.ok data => mapEdges data "orders"
   | Except.error e => Except.error e)

/-- `executeGetOrderById` (`server.js` 248–279): variables `{id: args.orderId}`,
returns `data.order`. -/
def executeGetOrderById : ToolHandler := fun env args =>
  let call : GraphQLCall :=
    { query := GQLQuery.getOrder
      vars := [("id", (args.getField "orderId").getD Json.null)] }
  ([call],
   match env call with
   | Except.ok data => Except.ok ((data.getField "order").getD Json.null)
   | Except.error e => Except.error e)

/-- `toolHandlers` (`server.js` 282–288; the same five handlers appear as the
`handler` fields of the `tools` object in the REST variant). -/
def toolHandlers : List (String × ToolHandler) :=
  [("get-products", executeGetProducts),
   ("get-product-by-id", executeGetProductById),
   ("get-customers", executeGetCustomers),
   ("get-orders", executeGetOrders),
   ("get-order-by-id", executeGetOrderById)]

/-! ## JavaScript object property access

Both variants index plain object literals with a caller-chosen string
(`tools[req.params.toolName]`, `toolHandlers[toolName]`).  A JavaScript
property read walks the prototype chain, so for the names of
`Object.prototype`'s own properties the read finds a truthy inherited value
instead of `undefined`, and the unknown-tool branch is skipped. -/

/-- The own property names of `Object.prototype`, which every object literal
inherits. -/
def protoMembers : List String :=
  ["constructor", "hasOwnProperty", "isPrototypeOf", "propertyIsEnumerable",
   "toLocaleString", "toString", "valueOf", "__defineGetter__",
   "__defineSetter__", "__lookupGetter__", "__lookupSetter__", "__proto__"]

/-- Result of a JavaScript property read on an object literal: an own
property, a member inherited from `Object.prototype` (always truthy), or
`undefined`. -/
inductive JsProp (β : Type) where
  | own (b : β) : JsProp β
  | inherited (member : String) : JsProp β
  | undef : JsProp β

/-- `table[name]` on an object literal whose own properties are `table`. -/
def jsIndex {β : Type} (table : List (String × β)) (name : String) : JsProp β :=
  match table.lookup name with
  | some b => JsProp.own b
  | none => if name ∈ protoMembers then JsProp.inherited name else JsProp.undef

/-- V8's message for the TypeError thrown by `tool.handler(req.body)` when
`tool` is an inherited `Object.prototype` member: none of those members has a
`handler` property, so the REST variant calls `undefined`. -/
def restHandlerTypeErrorMsg : String := "tool.handler is not a function"

/-- Behaviour of calling an inherited `Object.prototype` member the way the
MCP `tools/call` handler does (`await handler(args)`: a detached plain call,
`this` is `undefined`, one argument — the defaulted `arguments` value):
`constructor` is `Object`, whose application returns its argument (or a
wrapper object serializing identically to it); `toString` returns
`"[object Undefined]"`; `isPrototypeOf` returns `false` for a non-object
argument before it converts `this`; `__proto__` reads (via its getter, with
the table as receiver) as `Object.prototype`, which is not callable; every
other member converts `this = undefined` to an object first and throws a
TypeError. -/
def protoCall (member : String) (args : Json) : Except String Json :=
  if member = "constructor" then Except.ok args
  else if member = "toString" then Except.ok (Json.str "[object Undefined]")
  else if member = "isPrototypeOf" then
    match args with
    | Json.arr _ => Except.error typeErrorMsg
    | Json.obj _ => Except.error typeErrorMsg
    | _ => Except.ok (Json.bool false)
  else Except.error typeErrorMsg

/-! ## Tool descriptors

`toolDefinitions` in `server.js` (59–138); the `name`/`description`/
`inputSchema` fields of the `tools` object in the REST variant are textually
identical, so both variants share these constants. -/

/-- A tool descriptor as declared in the source: exactly the fields `name`,
`description` and `inputSchema`. -/
structure ToolDescriptor where
  name : String
  description : String
  inputSchema : Json
deriving DecidableEq

/-- JSON serialization of a descriptor: the three declared fields, in source
order. -/
def ToolDescriptor.toJson (d : ToolDescriptor) : Json :=
  Json.obj
    [("name", Json.str d.name),
     ("description", Json.str d.description),
     ("inputSchema", d.inputSchema)]

/-- Descriptor of `get-products`. -/
def getProductsDescr : ToolDescriptor :=
  { name := "get-products"
    description := "Get all products or search by title"
    inputSchema := Json.obj
      [("type", Json.str "object"),
       ("properties", Json.obj
         [("searchTitle", Json.obj
            [("type", Json.str "string"),
             ("description", Json.str "Filter products by title (optional)")]),
          ("limit", Json.obj
            [("type", Json.str "number"),
             ("description", Json.str "Maximum number of products to return"),
             ("default", Json.num 10)])])] }

/-- Descriptor of `get-product-by-id`. -/
def getProductByIdDescr : ToolDescriptor :=
  { name := "get-product-by-id"
    description := "Get a specific product by ID"
    inputSchema := Json.obj
      [("type", Json.str "object"),
       ("properties", Json.obj
         [("productId", Json.obj
            [("type", Json.str "string"),
             ("description", Json.str "ID of the product to retrieve")])]),
       ("required", Json.arr [Json.str "productId"])] }

/-- Descriptor of `get-customers`. -/
def getCustomersDescr : ToolDescriptor :=
  { name := "get-customers"
    description := "Get customers or search by name/email"
    inputSchema := Json.obj
      [("type", Json.str "object"),
       ("properties", Json.obj
         [("searchQuery", Json.obj
            [("type", Json.str "string"),
             ("description", Json.str "Filter customers by name or email (optional)")]),
          ("limit", Json.obj
            [("type", Json.str "number"),
             ("description", Json.str "Maximum number of customers to return"),
             ("default", Json.num 10)])])] }

/-- Descriptor of `get-orders`. -/
def getOrdersDescr : ToolDescriptor :=
  { name := "get-orders"
    description := "Get orders with optional filtering"
    inputSchema := Json.obj
      [("type", Json.str "object"),
       ("properties", Json.obj
         [("limit", Json.obj
            [("type", Json.str "number"),
             ("description", Json.str "Maximum number of orders to return"),
             ("default", Json.num 10)])])] }

/-- Descriptor of `get-order-by-id`. -/
def getOrderByIdDescr : ToolDescriptor :=
  { name := "get-order-by-id"
    description := "Get a specific order by ID"
    inputSchema := Json.obj
      [("type", Json.str "object"),
       ("properties", Json.obj
         [("orderId", Json.obj
            [("type", Json.str "string"),
             ("description", Json.str "Shopify order ID")])]),
       ("required", Json.arr [Json.str "orderId"])] }

/-- `toolDefinitions` (`server.js` 59–138), in declaration order. -/
def toolDefinitions : List ToolDescriptor :=
  [getProductsDescr, getProductByIdDescr, getCustomersDescr, getOrdersDescr,
   getOrderByIdDescr]

/-- The REST variant's `tools` object (`part_000` 44–153): each key maps to the
descriptor together with its handler. -/
def restToolTable : List (String × ToolDescriptor × ToolHandler) :=
  [("get-products", getProductsDescr, executeGetProducts),
   ("get-product-by-id", getProductByIdDescr, executeGetProductById),
   ("get-customers", getCustomersDescr, executeGetCustomers),
   ("get-orders", getOrdersDescr, executeGetOrders),
   ("get-order-by-id", getOrderByIdDescr, executeGetOrderById)]

/-! ## JSON.stringify with two-space indentation

The MCP `tools/call` handler re-serializes every successful handler result with
`JSON.stringify(result, null, 2)` before wrapping it in a text content block. -/

/-- `n` spaces. -/
def spaces (n : Nat) : String := String.mk (List.replicate n ' ')

/-- Lowercase hexadecimal digit for `n < 16`. -/
def hexDigit (n : Nat) : Char :=
  if n < 10 then Char.ofNat (48 + n) else Char.ofNat (87 + n)

/-- Escape one character for a JSON string literal as `JSON.stringify` does:
the named escapes for `"`, `\`, backspace, form feed, newline, carriage
return and tab, and `\u00xx` (lowercase hex) for every other control
character below U+0020.  (Lean's `Char` is a Unicode scalar value, so the
lone-surrogate case of well-formed stringify cannot arise.) -/
def escapeChar (c : Char) : String :=
  if c = '"' then "\\\""
  else if c = '\\' then "\\\\"
  else if c = '\x08' then "\\b"
  else if c = '\x0c' then "\\f"
  else if c = '\n' then "\\n"
  else if c = '\r' then "\\r"
  else if c = '\t' then "\\t"
  else if c.toNat < 32 then
    "\\u00" ++ String.mk [hexDigit (c.toNat / 16), hexDigit (c.toNat % 16)]
  else String.mk [c]

/-- Quote a string as a JSON string literal. -/
def quoteStr (s : String) : String :=
  "\"" ++ String.join (s.data.map escapeChar) ++ "\""

mutual

/-- Render a JSON value at indentation depth `ind`, following
`JSON.stringify(v, null, 2)`: empty arrays and objects print flat; non-empty
ones put each element on its own line, indented two further spaces. -/
def Json.render (ind : Nat) : Json → String
  | Json.null => "null"
  | Json.bool b => if b then "true" else "false"
  | Json.num n => toString n
  | Json.str s => quoteStr s
  | Json.arr [] => "[]"
  | Json.arr (x :: xs) =>
    "[\n" ++ Json.renderItems (ind + 2) (x :: xs) ++ "\n" ++ spaces ind ++ "]"
  | Json.obj [] => "\x7b\x7d"
  | Json.obj (f :: fs) =>
    "\x7b\n" ++ Json.renderFields (ind + 2) (f :: fs) ++ "\n" ++ spaces ind ++ "\x7d"

/-- Render array elements, one per line, comma-separated. -/
def Json.renderItems (ind : Nat) : List Json → String
  | [] => ""
  | [x] => spaces ind ++ Json.render ind x
  | x :: y :: xs =>
    spaces ind ++ Json.render ind x ++ ",\n" ++ Json.renderItems ind (y :: xs)

/-- Render object fields, one per line, comma-separated. -/
def Json.renderFields (ind : Nat) : List (String × Json) → String
  | [] => ""
  | [(k, v)] => spaces ind ++ quoteStr k ++ ": " ++ Json.render ind v
  | (k, v) :: g :: fs =>
    spaces ind ++ quoteStr k ++ ": " ++ Json.render ind v ++ ",\n" ++
      Json.renderFields ind (g :: fs)

end

/-- `JSON.stringify(v, null, 2)`. -/
def stringify2 (v : Json) : String := Json.render 0 v

/-! ## Authentication middleware

Identical in both variants (`server.js` 22–29, `part_000` 17–24):
`const apiKey = req.headers['x-api-key'] ||
req.headers['authorization']?.replace('Bearer ', '');` then reject with 401
unless `apiKey` is truthy and strictly equals `process.env.API_KEY`. -/

/-- The two request headers the middleware consults; `none` models an absent
header. -/
structure Headers where
  xApiKey : Option String
  authorization : Option String
deriving DecidableEq

/-- `s.replace(pat, '')` for a single-occurrence deletion: JavaScript
`String.prototype.replace` with a string pattern replaces only the first
occurrence. -/
def stripFirst (pat : List Char) : List Char → List Char
  | [] => []
  | c :: rest =>
    if (c :: rest).take pat.length = pat then (c :: rest).drop pat.length
    else c :: stripFirst pat rest

/-- `authorization?.replace('Bearer ', '')`. -/
def bearerStrip (s : String) : String :=
  String.mk (stripFirst "Bearer ".data s.data)

/-- JavaScript `a || b` on possibly-undefined header strings (the empty string
is falsy). -/
def jsOrOptStr (a b : Option String) : Option String :=
  match a with
  | some s => if s = "" then b else some s
  | none => b

/-- The `apiKey` local of the middleware. -/
def apiKeyOf (h : Headers) : Option String :=
  jsOrOptStr h.xApiKey (h.authorization.map bearerStrip)

/-- The middleware's pass condition: `apiKey` truthy and strictly equal to
`process.env.API_KEY` (itself possibly unset). -/
def authOk (envKey : Option String) (h : Headers) : Bool :=
  match apiKeyOf h with
  | none => false
  | some s => decide (s ≠ "") && decide (envKey = some s)

/-! ## REST variant endpoints (`part_000`) -/

/-- An HTTP response: status code and JSON body. -/
structure HttpResponse where
  status : Nat
  body : Json
deriving DecidableEq

/-- The middleware's 401 response. -/
def unauthorizedResponse : HttpResponse :=
  { status := 401, body := Json.obj [("error", Json.str "Unauthorized")] }

/-- `POST /tools/:toolName` after authentication (`part_000` 186–207): 404 when
`tools[toolName]` is `undefined`; on success a `{success:true, result}`
envelope; on a thrown error a 500 `{success:false, error}` envelope.  A name
inherited from `Object.prototype` is truthy, so it skips the 404 branch and
reaches `tool.handler(req.body)`, whose TypeError the surrounding `try` turns
into the 500 envelope.  The second component records the Shopify GraphQL calls
issued while serving the request. -/
def restCallToolDispatch (env : ShopifyEnv) (toolName : String) (body : Json) :
    HttpResponse × List GraphQLCall :=
  match jsIndex restToolTable toolName with
  | JsProp.undef =>
    ({ status := 404,
       body := Json.obj [("error", Json.str ("Tool not found: " ++ toolName))] }, [])
  | JsProp.inherited _ =>
    ({ status := 500,
       body := Json.obj
         [("success", Json.bool false),
          ("error", Json.str restHandlerTypeErrorMsg)] }, [])
  | JsProp.own (_, handler) =>
    match handler env body with
    | (calls, Except.ok result) =>
      ({ status := 200,
         body := Json.obj [("success", Json.bool true), ("result", result)] }, calls)
    | (calls, Except.error msg) =>
      ({ status := 500,
         body := Json.obj [("success", Json.bool false), ("error", Json.str msg)] }, calls)

/-- `POST /tools/:toolName` including the `authenticate` middleware. -/
def restCallTool (envKey : Option String) (env : ShopifyEnv) (h : Headers)
    (toolName : String) (body : Json) : HttpResponse × List GraphQLCall :=
  if authOk envKey h then restCallToolDispatch env toolName body
  else (unauthorizedResponse, [])

/-- Body of the `GET /tools` response (`part_000` 175–183):
`Object.values(tools)` projected onto `{name, description, inputSchema}`. -/
def restToolsBody : Json :=
  Json.obj
    [("tools", Json.arr (restToolTable.map (fun p => ToolDescriptor.toJson p.2.1)))]

/-- `GET /tools` including the `authenticate` middleware. -/
def restListTools (envKey : Option String) (h : Headers) : HttpResponse :=
  if authOk envKey h then { status := 200, body := restToolsBody }
  else unauthorizedResponse

/-! ## MCP variant handlers (`server.js`) -/

/-- One `{type, text}` content block of an MCP tool result. -/
structure TextContent where
  type : String
  text : String
deriving DecidableEq

/-- Outcome of the `tools/call` request handler: either a returned result
object (`content` blocks plus the optional `isError` flag, absent modelled as
`false`) or an exception thrown out of the handler (the unknown-tool case,
which the MCP SDK — outside this repository — turns into a JSON-RPC error
response). -/
inductive CallToolOutcome where
  | reply (content : List TextContent) (isError : Bool) : CallToolOutcome
  | thrown (msg : String) : CallToolOutcome
deriving DecidableEq

/-- The JSON object a `reply` outcome serializes to on the wire. -/
def CallToolOutcome.toJson : CallToolOutcome → Option Json
  | CallToolOutcome.reply content isErr =>
    some (Json.obj
      ([("content",
         Json.arr (content.map fun c =>
           Json.obj [("type", Json.str c.type), ("text", Json.str c.text)]))] ++
       (if isErr then [("isError", Json.bool true)] else [])))
  | CallToolOutcome.thrown _ => none

/-- The `tools/call` request handler (`server.js` 312–345): read
`toolHandlers[request.params.name]`, throw `Unknown tool` when the read yields
`undefined`; otherwise call the value on `request.params.arguments || {}`
inside the `try`, wrapping success in a `JSON.stringify(result, null, 2)` text
block and a thrown error in an `isError` text block.  A name inherited from
`Object.prototype` is truthy, so it skips the unknown-tool throw and the
inherited member itself is called (see `protoCall`). -/
def mcpToolsCall (env : ShopifyEnv) (toolName : String) (argsField : Option Json) :
    List GraphQLCall × CallToolOutcome :=
  let args := jsOr argsField (Json.obj [])
  match jsIndex toolHandlers toolName with
  | JsProp.undef => ([], CallToolOutcome.thrown ("Unknown tool: " ++ toolName))
  | JsProp.inherited member =>
    match protoCall member args with
    | Except.ok result =>
      ([], CallToolOutcome.reply [{ type := "text", text := stringify2 result }] false)
    | Except.error msg =>
      ([], CallToolOutcome.reply [{ type := "text", text := "Error: " ++ msg }] true)
  | JsProp.own handler =>
    match handler env args with
    | (calls, Except.ok result) =>
      (calls,
       CallToolOutcome.reply [{ type := "text", text := stringify2 result }] false)
    | (calls, Except.error msg) =>
      (calls,
       CallToolOutcome.reply [{ type := "text", text := "Error: " ++ msg }] true)

/-- The `tools/list` request handler (`server.js` 304–309): returns
`{tools: toolDefinitions}`. -/
def mcpToolsList : Json :=
  Json.obj [("tools", Json.arr (toolDefinitions.map ToolDescriptor.toJson))]

/-! ## SSE transport state (`server.js` 347–414)

The module-level `currentTransport` starts as `null`; a successful `GET /sse`
overwrites it with a fresh transport, and the `close` listener registered on
that request sets it back to `null` — unconditionally, even if a newer
connection has overwritten `currentTransport` in the meantime.  Transports are
identified by a `Nat` tag. -/

/-- Events affecting `currentTransport`. -/
inductive SseEvent where
  | connect (tid : Nat) : SseEvent
  | close (tid : Nat) : SseEvent
deriving DecidableEq

/-- `currentTransport` transition (`server.js` 378 and 386–389): a new
connection stores its transport; the `close` listener of any established
connection resets the variable to `null` regardless of which transport is
current. -/
def sseStep (_st : Option Nat) : SseEvent → Option Nat
  | SseEvent.connect t => some t
  | SseEvent.close _ => none

/-- Run a trace of SSE events from the initial `null` state. -/
def sseRun (evs : List SseEvent) : Option Nat :=
  evs.foldl sseStep none

/-- Outcome of `POST /messages`: either the request is handed to
`currentTransport.handlePostMessage` (written toward the backend) or an HTTP
response is produced without touching any transport. -/
inductive MessagesOutcome where
  | forwarded (tid : Nat) : MessagesOutcome
  | res (r : HttpResponse) : MessagesOutcome
deriving DecidableEq

/-- The 503 body of `POST /messages` when `currentTransport` is `null`. -/
def noSseResponse : HttpResponse :=
  { status := 503, body := Json.obj [("error", Json.str "No active SSE connection")] }

/-- `POST /messages` (`server.js` 399–414), including the `authenticate`
middleware: forward to the current transport when one exists, else 503. -/
def postMessages (envKey : Option String) (h : Headers) (ct : Option Nat) :
    MessagesOutcome :=
  if authOk envKey h then
    match ct with
    | some t => MessagesOutcome.forwarded t
    | none => MessagesOutcome.res noSseResponse
  else MessagesOutcome.res unauthorizedResponse

/-- The transport id of the connect event, if any. -/
def SseEvent.connectId : SseEvent → Option Nat
  | SseEvent.connect t => some t
  | SseEvent.close _ => none

/-- The most recently established connection of a trace (the transport stored
by the last `GET /sse`). -/
def lastConnect (evs : List SseEvent) : Option Nat :=
  (evs.filterMap SseEvent.connectId).getLast?

/-- Formalisation of the claim's words, for comparison with `sseRun`: the most
recently established connection that has not (yet) closed. -/
def mostRecentOpen (evs : List SseEvent) : Option Nat :=
  ((evs.filterMap SseEvent.connectId).filter
    (fun t => !(evs.contains (SseEvent.close t)))).getLast?

/-! ## FrameDecoder

Modelled from the spec: the repository's `src/` holds only the HTTP façade; the
FrameDecoder component described in §4.1 of the design (the byte-to-line
reassembler of the subprocess bridge) has no source file here.  The definitions
below follow the spec's words: one internal buffer; on each `feed`, append the
chunk, split on the newline delimiter, emit every piece but the last, keep the
last piece as the new buffer; drop empty/whitespace candidates; hand surviving
lines to a JSON parse step (parse failures are dropped, modelled by a parser
returning `Option`). -/

/-- Split a character stream at newline delimiters: the first component lists
the complete (newline-terminated) lines, the second is the trailing piece that
is not yet terminated. -/
def splitLines : List Char → List (List Char) × List Char
  | [] => ([], [])
  | c :: rest =>
    if c = '\n' then ([] :: (splitLines rest).1, (splitLines rest).2)
    else
      match splitLines rest with
      | ([], t) => ([], c :: t)
      | (l :: ls, t) => ((c :: l) :: ls, t)

/-- One `feed(chunk)` call: append the chunk to the buffer and split; returns
the emitted complete lines and the new buffer. -/
def feed (buf chunk : List Char) : List (List Char) × List Char :=
  splitLines (buf ++ chunk)

/-- Feed a sequence of chunks, concatenating the emitted lines. -/
def feedFrom (buf : List Char) : List (List Char) → List (List Char) × List Char
  | [] => ([], buf)
  | c :: cs =>
    let s1 := feed buf c
    let s2 := feedFrom s1.2 cs
    (s1.1 ++ s2.1, s2.2)

/-- Decode emitted candidate lines: discard empty/whitespace candidates, then
apply the JSON parse step, discarding lines that fail to parse. -/
def decodeLines (parse : List Char → Option α) (lines : List (List Char)) : List α :=
  (lines.filter (fun l => !(l.all Char.isWhitespace))).filterMap parse

/-- Feed a whole sequence of chunks into a fresh decoder and decode everything
emitted. -/
def decodeChunks (parse : List Char → Option α) (cs : List (List Char)) : List α :=
  decodeLines parse (feedFrom [] cs).1

/-! ## RequestCorrelator identifier generation

Modelled from the spec: the RequestCorrelator of §4.3 has no source file under
`src/`.  Following the spec's words, `issue` allocates the next identifier from
a monotonically increasing counter and records one pending entry under it;
`onMessage`/`onTimeout`/cancellation remove a single entry;
`onProcessTerminated` drains the whole table. -/

/-- The correlator's identifier state: the counter and the identifiers of the
currently pending requests. -/
structure Correlator where
  nextId : Nat
  pending : List Nat
deriving DecidableEq

/-- The initial correlator. -/
def Correlator.init : Correlator :=
  { nextId := 0, pending := [] }

/-- `issue`: return the next identifier, bump the counter, and record the
pending entry. -/
def Correlator.issue (c : Correlator) : Nat × Correlator :=
  (c.nextId, { nextId := c.nextId + 1, pending := c.pending ++ [c.nextId] })

/-- Removal of one pending entry (matched response, timeout, or caller
cancellation). -/
def Correlator.settle (c : Correlator) (id : Nat) : Correlator :=
  { c with pending := c.pending.erase id }

/-- `onProcessTerminated`: drain the whole pending table. -/
def Correlator.drain (c : Correlator) : Correlator :=
  { c with pending := [] }

/-- The correlator operations a trace may interleave. -/
inductive CorrOp where
  | issue : CorrOp
  | settle (id : Nat) : CorrOp
  | drain : CorrOp
deriving DecidableEq

/-- Run a trace of operations, collecting the identifiers handed out by the
`issue` operations, in order. -/
def Correlator.runTrace : Correlator → List CorrOp → Correlator × List Nat
  | c, [] => (c, [])
  | c, CorrOp.issue :: ops =>
    let r := Correlator.runTrace (c.issue).2 ops
    (r.1, (c.issue).1 :: r.2)
  | c, CorrOp.settle id :: ops => Correlator.runTrace (c.settle id) ops
  | c, CorrOp.drain :: ops => Correlator.runTrace c.drain ops

/-- Number of `issue` operations in a trace. -/
def countIssues : List CorrOp → Nat
  | [] => 0
  | CorrOp.issue :: ops => countIssues ops + 1
  | CorrOp.settle _ :: ops => countIssues ops
  | CorrOp.drain :: ops => countIssues ops

/-- Well-formedness of a correlator state: pending identifiers are pairwise
distinct and below the counter. -/
def Correlator.WF (c : Correlator) : Prop :=
  c.pending.Nodup ∧ ∀ i ∈ c.pending, i < c.nextId

/-! ## FrameDecoder lemmas -/

/-- Prepend a trailing buffer to the result of splitting a later stream
segment: the buffer fuses with the first line of the segment (or with its
trailing piece when the segment closes no line). -/
def glue (t : List Char) : List (List Char) × List Char → List (List Char) × List Char
  | ([], tb) => ([], t ++ tb)
  | (l :: ls, tb) => ((t ++ l) :: ls, tb)

theorem splitLines_append (a b : List Char) :
    splitLines (a ++ b) =
      ((splitLines a).1 ++ (glue (splitLines a).2 (splitLines b)).1,
       (glue (splitLines a).2 (splitLines b)).2) := by
  induction a with
  | nil =>
    rcases hb : splitLines b with ⟨lb, tb⟩
    cases lb <;> simp [splitLines, glue, hb]
  | cons c a ih =>
    by_cases hc : c = '\n'
    · subst hc
      simp [List.cons_append, splitLines, ih]
    · rcases hsa : splitLines a with ⟨la, ta⟩
      rcases hsb : splitLines b with ⟨lb, tb⟩
      cases la <;> cases lb <;>
        simp [List.cons_append, splitLines, hc, ih, hsa, hsb, glue]

theorem splitLines_noNewline (l : List Char) (h : '\n' ∉ l) :
    splitLines l = ([], l) := by
  induction l with
  | nil => rfl
  | cons c rest ih =>
    have hc : ¬ c = '\n' := fun k => h (k ▸ List.mem_cons_self c rest)
    have hrest : '\n' ∉ rest := fun k => h (List.mem_cons_of_mem c k)
    simp [splitLines, hc, ih hrest]

theorem splitLines_tail_noNewline (l : List Char) : '\n' ∉ (splitLines l).2 := by
  induction l with
  | nil => simp [splitLines]
  | cons c rest ih =>
    by_cases hc : c = '\n'
    · subst hc; simpa [splitLines] using ih
    · rcases hsr : splitLines rest with ⟨lr, tr⟩
      rw [hsr] at ih
      cases lr with
      | nil =>
        simp only [splitLines, if_neg hc, hsr]
        intro hmem
        rcases List.mem_cons.mp hmem with h1 | h2
        · exact hc h1.symm
        · exact ih h2
      | cons l0 ls => simpa [splitLines, hc, hsr] using ih

theorem feedFrom_eq_whole (cs : List (List Char)) (buf : List Char)
    (h : '\n' ∉ buf) : feedFrom buf cs = splitLines (buf ++ cs.flatten) := by
  induction cs generalizing buf with
  | nil => simp [feedFrom, splitLines_noNewline buf h]
  | cons c cs ih =>
    have htail : '\n' ∉ (splitLines (buf ++ c)).2 := splitLines_tail_noNewline _
    have h2 := ih (splitLines (buf ++ c)).2 htail
    have h3 := splitLines_append (splitLines (buf ++ c)).2 cs.flatten
    rw [splitLines_noNewline _ htail] at h3
    have h4 := splitLines_append (buf ++ c) cs.flatten
    simp only [feedFrom, feed, h2, h3]
    rw [List.flatten_cons, ← List.append_assoc buf c cs.flatten, h4]
    simp

theorem splitLines_single_line (line : List Char) (h : '\n' ∉ line) :
    splitLines (line ++ ['\n']) = ([line], []) := by
  induction line with
  | nil => simp [splitLines]
  | cons c rest ih =>
    have hc : ¬ c = '\n' := fun k => h (k ▸ List.mem_cons_self c rest)
    have hrest : '\n' ∉ rest := fun k => h (List.mem_cons_of_mem c k)
    simp [splitLines, hc, ih hrest]

/-! ## RequestCorrelator lemmas -/

theorem runTrace_ids (ops : List CorrOp) (c : Correlator) :
    (Correlator.runTrace c ops).2 =
      (List.range (countIssues ops)).map (fun i => c.nextId + i) := by
  induction ops generalizing c with
  | nil => simp [Correlator.runTrace, countIssues]
  | cons op ops ih =>
    cases op with
    | issue =>
      simp only [Correlator.runTrace, countIssues, ih, Correlator.issue,
        List.range_succ_eq_map, List.map_cons, List.map_map, Nat.add_zero]
      congr 1
      apply List.map_congr_left
      intro i _
      simp only [Function.comp_apply]
      omega
    | settle id => simpa [Correlator.runTrace, countIssues, Correlator.settle] using ih _
    | drain => simpa [Correlator.runTrace, countIssues, Correlator.drain] using ih _

theorem wf_issue (c : Correlator) (h : c.WF) : (c.issue).2.WF := by
  obtain ⟨hnd, hlt⟩ := h
  constructor
  · refine List.Nodup.append hnd (List.nodup_singleton _) ?_
    intro i hi hmem
    rcases List.mem_singleton.mp hmem with rfl
    exact absurd (hlt _ hi) (lt_irrefl _)
  · intro i hi
    rcases List.mem_append.mp hi with h1 | h1
    · exact Nat.lt_succ_of_lt (hlt _ h1)
    · rcases List.mem_singleton.mp h1 with rfl
      exact Nat.lt_succ_self _

theorem wf_settle (c : Correlator) (id : Nat) (h : c.WF) : (c.settle id).WF := by
  obtain ⟨hnd, hlt⟩ := h
  exact ⟨hnd.erase id, fun i hi => hlt i (List.mem_of_mem_erase hi)⟩

theorem wf_drain (c : Correlator) (_h : c.WF) : c.drain.WF := by
  exact ⟨List.nodup_nil, fun i hi => absurd hi (List.not_mem_nil i)⟩

theorem runTrace_wf (ops : List CorrOp) (c : Correlator) (h : c.WF) :
    (Correlator.runTrace c ops).1.WF := by
  induction ops generalizing c with
  | nil => exact h
  | cons op ops ih =>
    cases op with
    | issue => exact ih _ (wf_issue c h)
    | settle id => exact ih _ (wf_settle c id h)
    | drain => exact ih _ (wf_drain c h)

/-! ## Association-list lookup helper -/

theorem lookupNoneOfNotMem {β : Type} (l : List (String × β)) (k : String)
    (h : k ∉ l.map Prod.fst) : l.lookup k = none := by
  induction l with
  | nil => rfl
  | cons p l ih =>
    rcases p with ⟨k1, b⟩
    simp only [List.map_cons, List.mem_cons] at h
    push_neg at h
    have hb : (k == k1) = false := beq_eq_false_iff_ne.mpr h.1
    simp [List.lookup, hb, ih h.2]

/-- Keys of the five registered tools, in declaration order. -/
def toolNames : List String :=
  ["get-products", "get-product-by-id", "get-customers", "get-orders",
   "get-order-by-id"]

theorem restToolTable_keys : restToolTable.map Prod.fst = toolNames := rfl

theorem toolHandlers_keys : toolHandlers.map Prod.fst = toolNames := rfl

/-! ## Concrete environments used to instantiate the theorems -/

/-- A backend returning `null` data for every call. -/
def constEnv : ShopifyEnv := fun _ => Except.ok Json.null

/-- A backend whose products query returns an empty edge list. -/
def emptyProductsEnv : ShopifyEnv :=
  fun _ => Except.ok (Json.obj [("products", Json.obj [("edges", Json.arr [])])])

/-- A backend on which every call throws a Shopify HTTP failure. -/
def failingEnv : ShopifyEnv :=
  fun _ => Except.error "Shopify API error: Internal Server Error"

/-! ## Claims -/

/-- C1 counterexample: at the unregistered name `constructor` the object
property read finds `Object.prototype.constructor` (truthy), so the
unknown-tool branch is skipped: the REST variant answers 500 — the TypeError
from calling `tool.handler` — not 404, and the MCP variant calls
`Object(args)` and returns a *success* reply (the stringified defaulted
arguments, here the text `{}`) instead of throwing the unknown-tool error.
No Shopify GraphQL request is issued either way. -/
theorem unknownTool_proto_counterexample :
    "constructor" ∉ toolNames ∧
    restCallTool (some "k") constEnv { xApiKey := some "k", authorization := none }
      "constructor" (Json.obj []) =
      ({ status := 500,
         body := Json.obj
           [("success", Json.bool false),
            ("error", Json.str restHandlerTypeErrorMsg)] }, []) ∧
    mcpToolsCall constEnv "constructor" none =
      ([], CallToolOutcome.reply [{ type := "text", text := "\x7b\x7d" }] false) := by
  decide

/-- C1 (amended): a `callTool` invocation whose name is neither one of the
five registered tools nor an `Object.prototype` property fails with the
unknown-tool error — 404 `Tool not found` in the REST variant, a thrown
`Unknown tool` error in the MCP variant — and issues no Shopify GraphQL
request.  A name inherited from `Object.prototype` escapes the unknown-tool
path: the REST variant answers 500 with the `tool.handler` TypeError (still
without a Shopify request), and the MCP variant at `constructor` returns a
success reply echoing the defaulted arguments. -/
theorem unknownTool_amended :
    (∀ (envKey : Option String) (env : ShopifyEnv) (hd : Headers) (name : String)
       (body : Json) (args : Option Json),
      name ∉ toolNames → name ∉ protoMembers → authOk envKey hd = true →
      restCallTool envKey env hd name body =
        ({ status := 404,
           body := Json.obj [("error", Json.str ("Tool not found: " ++ name))] },
         []) ∧
      mcpToolsCall env name args =
        ([], CallToolOutcome.thrown ("Unknown tool: " ++ name))) ∧
    (∀ (envKey : Option String) (env : ShopifyEnv) (hd : Headers) (name : String)
       (body : Json),
      name ∉ toolNames → name ∈ protoMembers → authOk envKey hd = true →
      restCallTool envKey env hd name body =
        ({ status := 500,
           body := Json.obj
             [("success", Json.bool false),
              ("error", Json.str restHandlerTypeErrorMsg)] }, [])) ∧
    (∀ (env : ShopifyEnv) (args : Option Json),
      mcpToolsCall env "constructor" args =
        ([], CallToolOutcome.reply
          [{ type := "text", text := stringify2 (jsOr args (Json.obj [])) }]
          false)) := by
  refine ⟨?_, ?_, ?_⟩
  · intro envKey env hd name body args hname hproto hauth
    have h1 : restToolTable.lookup name = none := by
      refine lookupNoneOfNotMem _ _ ?_
      rw [restToolTable_keys]; exact hname
    have h2 : toolHandlers.lookup name = none := by
      refine lookupNoneOfNotMem _ _ ?_
      rw [toolHandlers_keys]; exact hname
    constructor
    · simp [restCallTool, hauth, restCallToolDispatch, jsIndex, h1, hproto]
    · simp [mcpToolsCall, jsIndex, h2, hproto]
  · intro envKey env hd name body hname hproto hauth
    have h1 : restToolTable.lookup name = none := by
      refine lookupNoneOfNotMem _ _ ?_
      rw [restToolTable_keys]; exact hname
    simp [restCallTool, hauth, restCallToolDispatch, jsIndex, h1, hproto]
  · intro env args
    rfl

/-- Witness for the amended C1: an ordinary unregistered name (`foo`), a
prototype member on the REST side (`toString`), and `constructor` on the MCP
side. -/
theorem unknownTool_amended_witness :
    (restCallTool (some "k") constEnv { xApiKey := some "k", authorization := none }
        "foo" (Json.obj []) =
      ({ status := 404,
         body := Json.obj [("error", Json.str ("Tool not found: " ++ "foo"))] },
       []) ∧
     mcpToolsCall constEnv "foo" none =
      ([], CallToolOutcome.thrown ("Unknown tool: " ++ "foo"))) ∧
    restCallTool (some "k") constEnv { xApiKey := some "k", authorization := none }
        "toString" (Json.obj []) =
      ({ status := 500,
         body := Json.obj
           [("success", Json.bool false),
            ("error", Json.str restHandlerTypeErrorMsg)] }, []) ∧
    mcpToolsCall constEnv "constructor" (some (Json.obj [("a", Json.num 1)])) =
      ([], CallToolOutcome.reply
        [{ type := "text",
           text := stringify2 (jsOr (some (Json.obj [("a", Json.num 1)]))
             (Json.obj [])) }] false) :=
  ⟨unknownTool_amended.1 (some "k") constEnv _ "foo" (Json.obj []) none
     (by decide) (by decide) (by decide),
   unknownTool_amended.2.1 (some "k") constEnv _ "toString" (Json.obj [])
     (by decide) (by decide) (by decide),
   unknownTool_amended.2.2 constEnv (some (Json.obj [("a", Json.num 1)]))⟩

/-- C2 counterexample: with a backend returning zero products, the
`get-products` handler computes the raw payload `[]`, yet the MCP `tools/call`
reply delivers the string `"[]"` inside a text content block — a re-serialized
wrapping, not the handler's declared result payload unchanged. -/
theorem callTool_payload_counterexample :
    (executeGetProducts emptyProductsEnv (Json.obj [])).2 = Except.ok (Json.arr []) ∧
    (mcpToolsCall emptyProductsEnv "get-products" none).2 =
      CallToolOutcome.reply [{ type := "text", text := "[]" }] false ∧
    (mcpToolsCall emptyProductsEnv "get-products" none).2.toJson ≠
      some (Json.arr []) := by
  refine ⟨rfl, rfl, ?_⟩
  decide

/-- C2 (amended): when the named tool's handler succeeds, the REST variant
replies 200 with a `{success:true, result}` envelope whose `result` field is
the handler's payload unchanged, while the MCP variant re-serializes the
payload with `JSON.stringify(result, null, 2)` into a text content block
rather than returning it unchanged. -/
theorem callTool_success_payload (envKey : Option String) (env : ShopifyEnv)
    (hd : Headers) (name : String) (d : ToolDescriptor) (handler : ToolHandler)
    (body : Json) (args : Option Json) (calls calls2 : List GraphQLCall)
    (r r2 : Json)
    (hauth : authOk envKey hd = true)
    (hrt : restToolTable.lookup name = some (d, handler))
    (hmc : toolHandlers.lookup name = some handler)
    (hrun : handler env body = (calls, Except.ok r))
    (hrun2 : handler env (jsOr args (Json.obj [])) = (calls2, Except.ok r2)) :
    restCallTool envKey env hd name body =
      ({ status := 200,
         body := Json.obj [("success", Json.bool true), ("result", r)] }, calls) ∧
    mcpToolsCall env name args =
      (calls2,
       CallToolOutcome.reply [{ type := "text", text := stringify2 r2 }] false) := by
  constructor
  · simp [restCallTool, hauth, restCallToolDispatch, jsIndex, hrt, hrun]
  · simp [mcpToolsCall, jsIndex, hmc, hrun2]

/-- Witness for the amended C2 at `get-products` over the empty-products
backend. -/
theorem callTool_success_payload_witness :
    restCallTool (some "k") emptyProductsEnv
        { xApiKey := some "k", authorization := none } "get-products"
        (Json.obj []) =
      ({ status := 200,
         body := Json.obj [("success", Json.bool true), ("result", Json.arr [])] },
       [{ query := GQLQuery.getProducts,
          vars := [("first", Json.num 10), ("query", Json.null)] }]) ∧
    mcpToolsCall emptyProductsEnv "get-products" none =
      ([{ query := GQLQuery.getProducts,
          vars := [("first", Json.num 10), ("query", Json.null)] }],
       CallToolOutcome.reply
         [{ type := "text", text := stringify2 (Json.arr []) }] false) :=
  callTool_success_payload (some "k") emptyProductsEnv _ "get-products"
    getProductsDescr executeGetProducts (Json.obj []) none
    [{ query := GQLQuery.getProducts,
       vars := [("first", Json.num 10), ("query", Json.null)] }]
    [{ query := GQLQuery.getProducts,
       vars := [("first", Json.num 10), ("query", Json.null)] }]
    (Json.arr []) (Json.arr []) (by decide) rfl rfl rfl rfl

/-- C3: with no active SSE connection, an authenticated `POST /messages` fails
immediately with the 503 `No active SSE connection` response; it is never
queued or forwarded toward the backend transport. -/
theorem messages_notReady_503 (envKey : Option String) (hd : Headers)
    (hauth : authOk envKey hd = true) :
    postMessages envKey hd none = MessagesOutcome.res noSseResponse ∧
    ∀ t, postMessages envKey hd none ≠ MessagesOutcome.forwarded t := by
  refine ⟨by simp [postMessages, hauth], ?_⟩
  intro t h
  simp [postMessages, hauth] at h

/-- Witness for C3. -/
theorem messages_notReady_503_witness :
    postMessages (some "k") { xApiKey := some "k", authorization := none } none =
      MessagesOutcome.res noSseResponse ∧
    ∀ t, postMessages (some "k") { xApiKey := some "k", authorization := none }
      none ≠ MessagesOutcome.forwarded t :=
  messages_notReady_503 (some "k") _ (by decide)

/-- C4: `listTools` returns, in both variants, the same fixed array of five
descriptors, each exposing exactly the fields `name`, `description` and
`inputSchema`; any two authenticated calls receive identical responses (the
descriptor list is a module-level constant, never invalidated). -/
theorem listTools_cached_descriptors (k1 k2 : Option String) (h1 h2 : Headers)
    (ha1 : authOk k1 h1 = true) (ha2 : authOk k2 h2 = true) :
    restListTools k1 h1 = restListTools k2 h2 ∧
    restListTools k1 h1 = { status := 200, body := restToolsBody } ∧
    restToolsBody =
      Json.obj [("tools", Json.arr (toolDefinitions.map ToolDescriptor.toJson))] ∧
    mcpToolsList =
      Json.obj [("tools", Json.arr (toolDefinitions.map ToolDescriptor.toJson))] ∧
    toolDefinitions.map ToolDescriptor.name = toolNames ∧
    (toolDefinitions.map ToolDescriptor.toJson).all
      (fun j =>
        match j with
        | Json.obj fs => decide (fs.map Prod.fst = ["name", "description", "inputSchema"])
        | _ => false) = true := by
  refine ⟨?_, ?_, rfl, rfl, rfl, by decide⟩
  · simp [restListTools, ha1, ha2]
  · simp [restListTools, ha1]

/-- Witness for C4. -/
theorem listTools_cached_descriptors_witness :
    restListTools (some "k") { xApiKey := some "k", authorization := none } =
      restListTools (some "q") { xApiKey := some "q", authorization := none } ∧
    restListTools (some "k") { xApiKey := some "k", authorization := none } =
      { status := 200, body := restToolsBody } ∧
    restToolsBody =
      Json.obj [("tools", Json.arr (toolDefinitions.map ToolDescriptor.toJson))] ∧
    mcpToolsList =
      Json.obj [("tools", Json.arr (toolDefinitions.map ToolDescriptor.toJson))] ∧
    toolDefinitions.map ToolDescriptor.name = toolNames ∧
    (toolDefinitions.map ToolDescriptor.toJson).all
      (fun j =>
        match j with
        | Json.obj fs => decide (fs.map Prod.fst = ["name", "description", "inputSchema"])
        | _ => false) = true :=
  listTools_cached_descriptors (some "k") (some "q") _ _ (by decide) (by decide)

/-- C5: when the named tool's handler throws (Shopify HTTP failure, GraphQL
errors, or a result-shape error), the caller-facing operation resolves into a
typed error value — a 500 `{success:false, error}` body in the REST variant, an
`isError` text content reply in the MCP variant — and never a propagated
exception, so the server keeps serving requests. -/
theorem callTool_handler_error (envKey : Option String) (env : ShopifyEnv)
    (hd : Headers) (name : String) (d : ToolDescriptor) (handler : ToolHandler)
    (body : Json) (args : Option Json) (calls calls2 : List GraphQLCall)
    (msg msg2 : String)
    (hauth : authOk envKey hd = true)
    (hrt : restToolTable.lookup name = some (d, handler))
    (hmc : toolHandlers.lookup name = some handler)
    (hrun : handler env body = (calls, Except.error msg))
    (hrun2 : handler env (jsOr args (Json.obj [])) = (calls2, Except.error msg2)) :
    restCallTool envKey env hd name body =
      ({ status := 500,
         body := Json.obj [("success", Json.bool false), ("error", Json.str msg)] },
       calls) ∧
    mcpToolsCall env name args =
      (calls2,
       CallToolOutcome.reply [{ type := "text", text := "Error: " ++ msg2 }] true) ∧
    (∀ m, (mcpToolsCall env name args).2 ≠ CallToolOutcome.thrown m) := by
  refine ⟨?_, ?_, ?_⟩
  · simp [restCallTool, hauth, restCallToolDispatch, jsIndex, hrt, hrun]
  · simp [mcpToolsCall, jsIndex, hmc, hrun2]
  · intro m h
    simp [mcpToolsCall, jsIndex, hmc, hrun2] at h

/-- Witness for C5 at `get-products` over the failing backend. -/
theorem callTool_handler_error_witness :
    restCallTool (some "k") failingEnv { xApiKey := some "k", authorization := none }
        "get-products" (Json.obj []) =
      ({ status := 500,
         body := Json.obj
           [("success", Json.bool false),
            ("error", Json.str "Shopify API error: Internal Server Error")] },
       [{ query := GQLQuery.getProducts,
          vars := [("first", Json.num 10), ("query", Json.null)] }]) ∧
    mcpToolsCall failingEnv "get-products" none =
      ([{ query := GQLQuery.getProducts,
          vars := [("first", Json.num 10), ("query", Json.null)] }],
       CallToolOutcome.reply
         [{ type := "text",
            text := "Error: " ++ "Shopify API error: Internal Server Error" }] true) ∧
    (∀ m, (mcpToolsCall failingEnv "get-products" none).2 ≠
      CallToolOutcome.thrown m) :=
  callTool_handler_error (some "k") failingEnv _ "get-products" getProductsDescr
    executeGetProducts (Json.obj []) none
    [{ query := GQLQuery.getProducts,
       vars := [("first", Json.num 10), ("query", Json.null)] }]
    [{ query := GQLQuery.getProducts,
       vars := [("first", Json.num 10), ("query", Json.null)] }]
    "Shopify API error: Internal Server Error"
    "Shopify API error: Internal Server Error"
    (by decide) rfl rfl rfl rfl

/-- C6 (spec-modelled): correlation identifiers come from the correlator's
single monotonically increasing counter, not from wall-clock time — a trace of
operations from the initial correlator assigns exactly the identifiers
`0, 1, 2, …` in issue order, so concurrently outstanding requests always carry
pairwise distinct identifiers, and the pending table never holds a duplicate. -/
theorem correlator_unique_identifiers (ops : List CorrOp) :
    (Correlator.runTrace Correlator.init ops).2 = List.range (countIssues ops) ∧
    (Correlator.runTrace Correlator.init ops).2.Nodup ∧
    (Correlator.runTrace Correlator.init ops).1.pending.Nodup := by
  have h1 := runTrace_ids ops Correlator.init
  have h2 : (Correlator.runTrace Correlator.init ops).2 =
      List.range (countIssues ops) := by
    simpa [Correlator.init] using h1
  have h3 := runTrace_wf ops Correlator.init
    ⟨List.nodup_nil, fun i hi => absurd hi (List.not_mem_nil i)⟩
  exact ⟨h2, h2 ▸ List.nodup_range _, h3.1⟩

/-- C7 (spec-modelled): feeding the FrameDecoder a single complete JSON-RPC
line split into any number of sub-chunks at any byte offsets yields exactly
the same single decoded message as feeding the line whole. -/
theorem frameDecoder_reassembly {α : Type} (parse : List Char → Option α)
    (line : List Char) (m : α) (cs : List (List Char))
    (hjoin : cs.flatten = line ++ ['\n'])
    (hnl : '\n' ∉ line)
    (hws : line.all Char.isWhitespace = false)
    (hparse : parse line = some m) :
    decodeChunks parse cs = [m] ∧ decodeChunks parse [line ++ ['\n']] = [m] := by
  have hwhole : ∀ ds : List (List Char), ds.flatten = line ++ ['\n'] →
      decodeChunks parse ds = [m] := by
    intro ds hds
    have h1 : feedFrom [] ds = splitLines ([] ++ ds.flatten) :=
      feedFrom_eq_whole ds [] (by simp)
    rw [List.nil_append, hds, splitLines_single_line line hnl] at h1
    simp [decodeChunks, h1, decodeLines, List.filter, List.filterMap, hws, hparse]
  exact ⟨hwhole cs hjoin, hwhole [line ++ ['\n']] (by simp)⟩

/-- Witness for C7: the line `x` terminated by a newline, fed as two chunks and
fed whole, both decode to the same single message. -/
theorem frameDecoder_reassembly_witness :
    decodeChunks (fun l => if l = ['x'] then some 0 else none) [['x'], ['\n']] =
      [(0 : Nat)] ∧
    decodeChunks (fun l => if l = ['x'] then some 0 else none) [['x'] ++ ['\n']] =
      [(0 : Nat)] :=
  frameDecoder_reassembly (fun l => if l = ['x'] then some 0 else none) ['x'] 0
    [['x'], ['\n']] (by decide) (by decide) (by decide) (by decide)

/-- C8 counterexample: with `API_KEY = "k"`, a request carrying the matching
Bearer token in `authorization` but a non-matching `x-api-key` is rejected with
401 — the claim's "matching key in either header is admitted" fails, because
`||` short-circuits on the truthy (wrong) `x-api-key`. -/
theorem auth_bearer_shadowed :
    bearerStrip ("Bearer " ++ "k") = "k" ∧
    authOk (some "k")
      { xApiKey := some "wrong", authorization := some ("Bearer " ++ "k") } = false ∧
    restCallTool (some "k") constEnv
      { xApiKey := some "wrong", authorization := some ("Bearer " ++ "k") }
      "get-products" (Json.obj []) = (unauthorizedResponse, []) := by
  decide

/-- C8 (amended): a request on which neither the `x-api-key` header nor the
stripped Bearer token equals `API_KEY` is answered 401 with no handler run and
no Shopify call; a non-empty `x-api-key` equal to `API_KEY` is admitted; the
Bearer token admits only when the `x-api-key` header is absent or empty —
a present non-matching `x-api-key` shadows a matching Bearer token. -/
theorem authenticate_amended :
    (∀ (envKey : Option String) (env : ShopifyEnv) (hd : Headers) (name : String)
       (body : Json) (ct : Option Nat),
      (∀ s, hd.xApiKey = some s → envKey ≠ some s) →
      (∀ a, hd.authorization = some a → envKey ≠ some (bearerStrip a)) →
      authOk envKey hd = false ∧
      restCallTool envKey env hd name body = (unauthorizedResponse, []) ∧
      restListTools envKey hd = unauthorizedResponse ∧
      postMessages envKey hd ct = MessagesOutcome.res unauthorizedResponse) ∧
    (∀ (k : String) (hd : Headers), hd.xApiKey = some k → k ≠ "" →
      authOk (some k) hd = true) ∧
    (∀ (a : String) (hd : Headers), hd.xApiKey = none ∨ hd.xApiKey = some "" →
      hd.authorization = some a → bearerStrip a ≠ "" →
      authOk (some (bearerStrip a)) hd = true) := by
  refine ⟨?_, ?_, ?_⟩
  · intro envKey env hd name body ct hne1 hne2
    have hfalse : authOk envKey hd = false := by
      rcases hd with ⟨x, a⟩
      cases x with
      | none =>
        cases a with
        | none => rfl
        | some s =>
          have hne := hne2 s rfl
          simp [authOk, apiKeyOf, jsOrOptStr, hne]
      | some s =>
        by_cases hs : s = ""
        · subst hs
          cases a with
          | none => rfl
          | some t =>
            have hne := hne2 t rfl
            simp [authOk, apiKeyOf, jsOrOptStr, hne]
        · have hne := hne1 s rfl
          simp [authOk, apiKeyOf, jsOrOptStr, hs, hne]
    refine ⟨hfalse, ?_, ?_, ?_⟩
    · simp [restCallTool, hfalse]
    · simp [restListTools, hfalse]
    · simp [postMessages, hfalse]
  · intro k hd hx hk
    rcases hd with ⟨x, a⟩
    simp only [Headers.xApiKey] at hx
    subst hx
    simp [authOk, apiKeyOf, jsOrOptStr, hk]
  · intro a hd hxe ha hk
    rcases hd with ⟨x, au⟩
    simp only [Headers.authorization] at ha
    subst ha
    rcases hxe with hx | hx <;> simp only [Headers.xApiKey] at hx <;> subst hx <;>
      simp [authOk, apiKeyOf, jsOrOptStr, hk]

/-- Witness for the amended C8: rejection of a wrong `x-api-key`, admission of
a matching `x-api-key`, and admission of a matching Bearer token when
`x-api-key` is absent. -/
theorem authenticate_amended_witness :
    (authOk (some "k") { xApiKey := some "w", authorization := none } = false ∧
     restCallTool (some "k") constEnv { xApiKey := some "w", authorization := none }
       "get-products" (Json.obj []) = (unauthorizedResponse, []) ∧
     restListTools (some "k") { xApiKey := some "w", authorization := none } =
       unauthorizedResponse ∧
     postMessages (some "k") { xApiKey := some "w", authorization := none } none =
       MessagesOutcome.res unauthorizedResponse) ∧
    authOk (some "k") { xApiKey := some "k", authorization := none } = true ∧
    authOk (some (bearerStrip "Bearer k"))
      { xApiKey := none, authorization := some "Bearer k" } = true :=
  ⟨authenticate_amended.1 (some "k") constEnv _ "get-products" (Json.obj []) none
      (fun s hs => by
        injection hs with h
        subst h
        decide)
      (fun a ha => Option.noConfusion ha),
   authenticate_amended.2.1 "k" _ rfl (by decide),
   authenticate_amended.2.2 "Bearer k" _ (Or.inl rfl) rfl (by decide)⟩

/-- C9: for `get-products`, `get-customers` and `get-orders`, an absent or
falsy `limit` argument — `0`, `null`, `false` or the empty string — is
replaced by the default: the single GraphQL call each handler issues carries
`first = 10`. -/
theorem limit_falsy_defaults_to_ten (env : ShopifyEnv) (args : Json)
    (hlim : ∀ v, args.getField "limit" = some v → v.truthy = false) :
    (executeGetProducts env args).1.map (fun c => c.vars.lookup "first") =
      [some (Json.num 10)] ∧
    (executeGetCustomers env args).1.map (fun c => c.vars.lookup "first") =
      [some (Json.num 10)] ∧
    (executeGetOrders env args).1.map (fun c => c.vars.lookup "first") =
      [some (Json.num 10)] := by
  have hfirst : jsOr (args.getField "limit") (Json.num 10) = Json.num 10 := by
    cases h : args.getField "limit" with
    | none => rfl
    | some v => simp [jsOr, hlim v h]
  refine ⟨?_, ?_, ?_⟩ <;>
    simp [executeGetProducts, executeGetCustomers, executeGetOrders, hfirst,
      List.lookup]

/-- Witness for C9 at an explicit `limit` of `0`. -/
theorem limit_falsy_defaults_to_ten_witness :
    (executeGetProducts constEnv (Json.obj [("limit", Json.num 0)])).1.map
      (fun c => c.vars.lookup "first") = [some (Json.num 10)] ∧
    (executeGetCustomers constEnv (Json.obj [("limit", Json.num 0)])).1.map
      (fun c => c.vars.lookup "first") = [some (Json.num 10)] ∧
    (executeGetOrders constEnv (Json.obj [("limit", Json.num 0)])).1.map
      (fun c => c.vars.lookup "first") = [some (Json.num 10)] :=
  limit_falsy_defaults_to_ten constEnv (Json.obj [("limit", Json.num 0)])
    (fun v hv => by
      have h0 : Json.num 0 = v := Option.some.inj hv
      rw [← h0]
      rfl)

/-- C10 counterexample: establish connection 1, then connection 2, then let
connection 1 close (a stale close): `currentTransport` drops to `null` although
connection 2 — the most recently established, still-open connection — exists,
so an authenticated `POST /messages` answers 503 instead of routing to it. -/
theorem sse_stale_close_counterexample :
    mostRecentOpen [SseEvent.connect 1, SseEvent.connect 2, SseEvent.close 1] =
      some 2 ∧
    sseRun [SseEvent.connect 1, SseEvent.connect 2, SseEvent.close 1] = none ∧
    postMessages (some "k") { xApiKey := some "k", authorization := none }
      (sseRun [SseEvent.connect 1, SseEvent.connect 2, SseEvent.close 1]) =
      MessagesOutcome.res noSseResponse ∧
    MessagesOutcome.res noSseResponse ≠ MessagesOutcome.forwarded 2 := by
  decide

/-- C10 (amended): at most one transport is active (`currentTransport` is a
single optional cell); when it is non-null it holds the most recently
established connection, to which `POST /messages` is forwarded; but the close
of ANY established connection — current or stale — resets `currentTransport`
to null, after which `POST /messages` fails with 503 even if a newer
connection is still open. -/
theorem sse_single_transport_amended :
    (∀ evs t, sseRun evs = some t → lastConnect evs = some t) ∧
    (∀ st t, sseStep st (SseEvent.close t) = none) ∧
    (∀ (envKey : Option String) (hd : Headers) (t : Nat),
      authOk envKey hd = true →
      postMessages envKey hd (some t) = MessagesOutcome.forwarded t) ∧
    (∀ (envKey : Option String) (hd : Headers),
      authOk envKey hd = true →
      postMessages envKey hd none = MessagesOutcome.res noSseResponse) := by
  refine ⟨?_, fun st t => rfl, ?_, ?_⟩
  · intro evs
    induction evs using List.reverseRecOn with
    | nil => intro t h; exact absurd h (by simp [sseRun])
    | append_singleton evs e ih =>
      intro t h
      cases e with
      | connect u =>
        have hr : sseRun (evs ++ [SseEvent.connect u]) = some u := by
          simp [sseRun, List.foldl_append, sseStep]
        rw [hr] at h
        injection h with h
        subst h
        simp [lastConnect, SseEvent.connectId, List.filterMap_append]
      | close u =>
        have hr : sseRun (evs ++ [SseEvent.close u]) = none := by
          simp [sseRun, List.foldl_append, sseStep]
        rw [hr] at h
        exact Option.noConfusion h
  · intro envKey hd t hauth
    simp [postMessages, hauth]
  · intro envKey hd hauth
    simp [postMessages, hauth]

/-- Witness for the amended C10. -/
theorem sse_single_transport_amended_witness :
    lastConnect [SseEvent.connect 3] = some 3 ∧
    postMessages (some "k") { xApiKey := some "k", authorization := none }
      (some 3) = MessagesOutcome.forwarded 3 ∧
    postMessages (some "k") { xApiKey := some "k", authorization := none } none =
      MessagesOutcome.res noSseResponse :=
  ⟨sse_single_transport_amended.1 [SseEvent.connect 3] 3 (by decide),
   sse_single_transport_amended.2.2.1 (some "k") _ 3 (by decide),
   sse_single_transport_amended.2.2.2 (some "k") _ (by decide)⟩
